import Mathlib

/-!
Shallow embedding of wallet713's message broker, dispatch controller, swap
multiplexer and swap action loop, together with proofs about the behaviour of
the embedded operations.

Conventions used throughout:
* machine integers become `Nat` (no arithmetic here ever wraps);
* fallible Rust functions returning `Result` become `Except`;
* external collaborators (the wallet ledger, the swap engine, the cryptographic
  primitives, the websocket transport) become explicit oracle records, so each
  embedded operation is a pure function of its inputs and its oracles;
* observable side effects (publishes, handler callbacks, batch commits) are
  collected into explicit event lists.
-/

namespace Wallet713

/-- Modelled from the spec: the swap-engine error kind, with the constructors
the embedded sources construct (`MissingKeychain` and `Generic`). -/
inductive SwapErrorKind
  | MissingKeychain
  | Generic (s : String)
  deriving DecidableEq, Repr

/-- Error values built by the embedded sources.  The wallet error enum itself is
not part of the embedded tree; the constructors below are the ones the embedded
code constructs or matches on, plus `SwapError` for swap-engine errors
propagated through the `?` operator, and `Panicked`/`NoFuel` for the embedded
action loop's panic and step-budget outcomes (a real panic unwinds past the
caller; in both cases no further store mutation happens). -/
inductive Error
  | ClosedListener (s : String)
  | GenericError (s : String)
  | WsProtocol (s : String)
  | CryptoError
  | InvalidPublicKey
  | NoSeed
  | NoBackend
  | NotFound
  | SwapError (e : SwapErrorKind)
  | Panicked
  | NoFuel
  deriving DecidableEq, Repr

/-- String payloads of the error constructions in the embedded sources. -/
def grinbox_tag : String := "grinbox"

def send_failure_msg : String := "failed sending message to grinbox relay"

def encrypt_failure_msg : String := "could not encrypt grinbox message"

def swap_exists_msg : String := "Swap already exists"

def open_failure_msg : String := "could not open wallet"

def parse_address_failure_msg : String := "could not parse address"

/- ------------------------------------------------------------------ -/
/- Dispatch controller (src/src/broker/types.rs)                      -/
/- ------------------------------------------------------------------ -/

/-- Modelled from the spec: the slate fields the dispatch controller reads.
`tx_inputs` stands for the input list of the embedded transaction
(`slate.tx.inputs()`), `participant_data` for the participant entries collected
so far; the slate type itself lives outside the embedded tree. -/
structure Slate where
  id : Nat
  num_participants : Nat
  participant_data : List Nat
  tx_inputs : List Nat
  amount : Nat
  deriving DecidableEq, Repr

/-- Modelled from the spec: a slate together with the wire version it was
received in.  `into_version` converts a slate back to a given wire version and
`version` reads the tag; the conversion module lives outside the embedded
tree. -/
structure VersionedSlate where
  slate : Slate
  version : Nat
  deriving DecidableEq, Repr

def VersionedSlate.into_version (s : Slate) (v : Nat) : VersionedSlate :=
  { slate := s, version := v }

/-- Oracles for the two wallet-facing operation surfaces held by the
controller: `receive_tx` on the Foreign api and `finalize_tx` on the Owner api.
Their wallet-internal behaviour is outside the dispatch controller and is left
arbitrary.  `finalize_tx` receives whether a transaction proof was attached. -/
structure ControllerOps where
  receive_tx : Slate → Option String → Except Error Slate
  finalize_tx : Slate → Bool → Except Error Unit

/-- Observable actions of the dispatch controller while handling a slate. -/
inductive SlateEvent
  | receiveTx (slate : Slate) (address : Option String)
  | finalizeTx (slate : Slate) (withProof : Bool)
  | publish (vslate : VersionedSlate) (dest : String)
  deriving DecidableEq, Repr

/-- Embedding of `Controller::process_incoming_slate`: a slate with fewer
participant entries than required is either left alone (zero inputs, the
unimplemented invoicing path) or passed to `receive_tx`; otherwise it is passed
to `finalize_tx`.  Returns the `is_finalized` flag and the (possibly replaced)
slate, together with the wallet calls made. -/
def Controller.process_incoming_slate (ops : ControllerOps) (address : Option String)
    (slate : Slate) (has_proof : Bool) :
    Except Error (Bool × Slate) × List SlateEvent :=
  if slate.participant_data.length < slate.num_participants then
    if slate.tx_inputs.length = 0 then
      (Except.ok (false, slate), [])
    else
      match ops.receive_tx slate address with
      | Except.ok s => (Except.ok (false, s), [SlateEvent.receiveTx slate address])
      | Except.error e => (Except.error e, [SlateEvent.receiveTx slate address])
  else
    match ops.finalize_tx slate has_proof with
    | Except.ok _ => (Except.ok (true, slate), [SlateEvent.finalizeTx slate has_proof])
    | Except.error e => (Except.error e, [SlateEvent.finalizeTx slate has_proof])

/-- Embedding of `Controller::on_slate`: converts the versioned slate, processes
it, and when the result is not finalized republishes the updated slate, at the
captured version, to the sender.  Errors are logged and dropped, so the result
is just the event trace. -/
def Controller.on_slate (ops : ControllerOps) (sender : String)
    (vslate : VersionedSlate) (has_proof : Bool) : List SlateEvent :=
  let version := vslate.version
  let slate := vslate.slate
  match Controller.process_incoming_slate ops (some sender) slate has_proof with
  | (Except.ok (is_finalized, slate2), evs) =>
    if is_finalized then evs
    else evs ++ [SlateEvent.publish (VersionedSlate.into_version slate2 version) sender]
  | (Except.error _, evs) => evs

/-- Wallet oracle that accepts every slate unchanged; used for concrete runs. -/
def trivialOps : ControllerOps :=
  { receive_tx := fun s _ => Except.ok s
    finalize_tx := fun _ _ => Except.ok () }

/-- Wallet oracle whose `receive_tx` adds a participant entry; used for
concrete runs. -/
def bumpOps : ControllerOps :=
  { receive_tx := fun s _ =>
      Except.ok { s with participant_data := s.participant_data ++ [1] }
    finalize_tx := fun _ _ => Except.ok () }

def peer_name : String := "peer"

/-- Concrete zero-input slate with one of two required signatures missing. -/
def zeroInputSlate : Slate :=
  { id := 7, num_participants := 2, participant_data := [0], tx_inputs := [], amount := 100 }

/-- Concrete zero-input slate that is fully signed. -/
def zeroInputSlateFull : Slate :=
  { id := 8, num_participants := 1, participant_data := [0], tx_inputs := [], amount := 25 }

/-- Concrete one-input slate with one of two required signatures missing. -/
def oneInputSlate : Slate :=
  { id := 9, num_participants := 2, participant_data := [0], tx_inputs := [1], amount := 50 }

/-- C1 as stated is false: `on_slate` on a zero-input slate with fewer
signatures than required publishes the unchanged slate back to the sender.
Concrete run: zero inputs, 1 of 2 participants signed, trivial wallet oracle;
the event trace consists of exactly one publish to the sender. -/
theorem c1_zero_inputs_counterexample :
    Controller.on_slate trivialOps peer_name
        (VersionedSlate.mk zeroInputSlate 1) false =
      [SlateEvent.publish (VersionedSlate.mk zeroInputSlate 1) peer_name] := by
  decide

/-- C1 (amended): for every incoming slate whose transaction has zero inputs,
`on_slate` invokes neither receive-transaction nor finalize when fewer
participants have signed than required, but it still publishes the unchanged
slate back to the sender; a fully signed zero-input slate is instead passed to
finalize with no publish. -/
theorem c1_on_slate_zero_inputs (ops : ControllerOps) (sender : String)
    (v : VersionedSlate) (hp : Bool) (h : v.slate.tx_inputs = []) :
    Controller.on_slate ops sender v hp =
      if v.slate.participant_data.length < v.slate.num_participants then
        [SlateEvent.publish (VersionedSlate.into_version v.slate v.version) sender]
      else
        [SlateEvent.finalizeTx v.slate hp] := by
  by_cases hlt : v.slate.participant_data.length < v.slate.num_participants
  · simp [Controller.on_slate, Controller.process_incoming_slate, h, hlt]
  · cases hfin : ops.finalize_tx v.slate hp <;>
      simp [Controller.on_slate, Controller.process_incoming_slate, h, hlt, hfin]

/-- Witness for the amended C1 at concrete inputs: a fully signed zero-input
slate is routed to finalize and nothing is published. -/
theorem c1_on_slate_zero_inputs_witness :
    Controller.on_slate trivialOps peer_name
        (VersionedSlate.mk zeroInputSlateFull 2) true =
      [SlateEvent.finalizeTx zeroInputSlateFull true] := by
  rw [c1_on_slate_zero_inputs trivialOps peer_name
    (VersionedSlate.mk zeroInputSlateFull 2) true (by decide)]
  decide

/-- C2: for every incoming slate with at least one input, (a) if fewer
participants have signed than required and receive-transaction succeeds with an
updated slate, the trace is exactly one receive-transaction call followed by
exactly one publish of the updated slate back to the sender, carrying the
incoming slate's version unchanged; (b) if the slate is fully signed, the trace
is exactly one finalize call carrying the proof, with zero publishes. -/
theorem c2_on_slate_nonzero_inputs (ops : ControllerOps) (sender : String)
    (v : VersionedSlate) (hp : Bool) (hin : v.slate.tx_inputs ≠ []) :
    (∀ s2 : Slate,
      v.slate.participant_data.length < v.slate.num_participants →
      ops.receive_tx v.slate (some sender) = Except.ok s2 →
      Controller.on_slate ops sender v hp =
        [SlateEvent.receiveTx v.slate (some sender),
         SlateEvent.publish (VersionedSlate.mk s2 v.version) sender]) ∧
    (v.slate.participant_data.length = v.slate.num_participants →
      Controller.on_slate ops sender v hp = [SlateEvent.finalizeTx v.slate hp]) := by
  constructor
  · intro s2 hlt hrx
    have hlen : ¬ v.slate.tx_inputs.length = 0 := by
      simpa [List.length_eq_zero] using hin
    simp [Controller.on_slate, Controller.process_incoming_slate, hlt, hlen, hrx,
      VersionedSlate.into_version]
  · intro heq
    have hnlt : ¬ v.slate.participant_data.length < v.slate.num_participants := by
      omega
    cases hfin : ops.finalize_tx v.slate hp <;>
      simp [Controller.on_slate, Controller.process_incoming_slate, hnlt, hfin]

/-- Witness for C2 at concrete inputs: a one-input slate signed by 1 of 2
participants, with a wallet oracle that adds a participant entry; the trace is
the receive-transaction call followed by one publish at the incoming version. -/
theorem c2_on_slate_nonzero_inputs_witness :
    Controller.on_slate bumpOps peer_name (VersionedSlate.mk oneInputSlate 2) false =
      [SlateEvent.receiveTx oneInputSlate (some peer_name),
       SlateEvent.publish
         (VersionedSlate.mk
           { oneInputSlate with participant_data := oneInputSlate.participant_data ++ [1] } 2)
         peer_name] :=
  (c2_on_slate_nonzero_inputs bumpOps peer_name (VersionedSlate.mk oneInputSlate 2) false
    (by decide)).1 _ (by decide) rfl

/- ------------------------------------------------------------------ -/
/- Swap multiplexer (src/src/wallet/swap.rs)                          -/
/- ------------------------------------------------------------------ -/

/-- Modelled from the spec: the secondary-currency tag of the swap engine; the
embedded tree registers only the Bitcoin implementation. -/
inductive Currency
  | Btc
  deriving DecidableEq, Repr

def api_not_found_msg : String := "API not found"

def expected_buyer_msg : String := "expected buyer context"

/-- Per-currency swap implementation as the multiplexer sees it: the only state
the multiplexer manipulates is the implementation's keychain slot, through
`set_keychain`. -/
structure SwapApiImpl (K : Type) where
  keychain : Option K
  deriving DecidableEq, Repr

/-- Association-list lookup for the per-currency implementation map. -/
def findApi {K : Type} : List (Currency × SwapApiImpl K) → Currency → Option (SwapApiImpl K)
  | [], _ => none
  | (c, a) :: rest, c2 => if c = c2 then some a else findApi rest c2

/-- Replaces the implementation stored for a currency, leaving others alone. -/
def updateApi {K : Type} : List (Currency × SwapApiImpl K) → Currency → SwapApiImpl K →
    List (Currency × SwapApiImpl K)
  | [], _, _ => []
  | (c, a) :: rest, c2, a2 =>
    if c = c2 then (c, a2) :: rest else (c, a) :: updateApi rest c2 a2

/-- Embedding of the `SwapApis` multiplexer state: the per-currency
implementation map and the multiplexer's own keychain slot. -/
structure SwapApis (K : Type) where
  apis : List (Currency × SwapApiImpl K)
  keychain : Option K
  deriving DecidableEq, Repr

/-- Observable keychain manipulations on per-currency implementations. -/
inductive MuxEvent (K : Type)
  | set_keychain (c : Currency) (k : Option K)
  | call (c : Currency)
  deriving DecidableEq, Repr

/-- Embedding of `SwapApis::open_and_close`: clones the stored keychain
(failing with `MissingKeychain` if absent), resolves the implementation for the
currency (failing with `Generic "API not found"` if unregistered), installs the
keychain into it, runs the operation, and uninstalls the keychain before
returning the operation's result.  The trace records the keychain installs and
the inner call. -/
def SwapApis.open_and_close {K X : Type} (st : SwapApis K) (currency : Currency)
    (f : SwapApiImpl K → Except SwapErrorKind X × SwapApiImpl K) :
    Except SwapErrorKind X × SwapApis K × List (MuxEvent K) :=
  match st.keychain with
  | none => (Except.error SwapErrorKind.MissingKeychain, st, [])
  | some kc =>
    match findApi st.apis currency with
    | none => (Except.error (SwapErrorKind.Generic api_not_found_msg), st, [])
    | some api =>
      let api1 : SwapApiImpl K := { api with keychain := some kc }
      let r := f api1
      let api3 : SwapApiImpl K := { r.2 with keychain := none }
      (r.1, { st with apis := updateApi st.apis currency api3 },
        [MuxEvent.set_keychain currency (some kc), MuxEvent.call currency,
         MuxEvent.set_keychain currency none])

/-- Lookup after an update at the same key returns the new value, provided the
key was present. -/
theorem findApi_updateApi_self {K : Type} (l : List (Currency × SwapApiImpl K))
    (c : Currency) (a a2 : SwapApiImpl K) (h : findApi l c = some a) :
    findApi (updateApi l c a2) c = some a2 := by
  induction l with
  | nil => simp [findApi] at h
  | cons hd tl ih =>
    obtain ⟨c1, a1⟩ := hd
    by_cases hc : c1 = c
    · subst hc
      simp [findApi, updateApi]
    · rw [updateApi, if_neg hc, findApi, if_neg hc]
      rw [findApi, if_neg hc] at h
      exact ih h

/-- C3: a multiplexer operation on a currency with no registered implementation,
dispatched while a keychain is stored, fails with the "API not found" error
(`ErrorKind::Generic("API not found")`), leaves the multiplexer state unchanged,
and performs no `set_keychain` call on any per-currency implementation. -/
theorem c3_unregistered_currency {K X : Type} (st : SwapApis K) (currency : Currency)
    (f : SwapApiImpl K → Except SwapErrorKind X × SwapApiImpl K) (kc : K)
    (hk : st.keychain = some kc) (habsent : findApi st.apis currency = none) :
    SwapApis.open_and_close st currency f =
      (Except.error (SwapErrorKind.Generic api_not_found_msg), st, []) := by
  simp [SwapApis.open_and_close, hk, habsent]

/-- Witness for C3 at concrete inputs: an empty implementation map with a
stored keychain. -/
theorem c3_unregistered_currency_witness :
    SwapApis.open_and_close (K := Nat) (X := Unit)
        { apis := [], keychain := some 5 } Currency.Btc
        (fun a => (Except.ok (), a)) =
      (Except.error (SwapErrorKind.Generic api_not_found_msg),
        { apis := [], keychain := some 5 }, []) :=
  c3_unregistered_currency { apis := [], keychain := some 5 } Currency.Btc
    (fun a => (Except.ok (), a)) 5 rfl rfl

/-- C9: a multiplexer operation on a registered currency with a stored keychain
installs the keychain into the target implementation only for the duration of
the one inner call — the trace is install, call, uninstall — and afterwards the
target implementation's keychain slot is `none`, while the operation's result,
success or failure, is passed through unchanged. -/
theorem c9_scoped_keychain {K X : Type} (st : SwapApis K) (currency : Currency)
    (f : SwapApiImpl K → Except SwapErrorKind X × SwapApiImpl K) (kc : K)
    (api : SwapApiImpl K) (hk : st.keychain = some kc)
    (hreg : findApi st.apis currency = some api) :
    (SwapApis.open_and_close st currency f).2.2 =
      [MuxEvent.set_keychain currency (some kc), MuxEvent.call currency,
       MuxEvent.set_keychain currency none] ∧
    findApi (SwapApis.open_and_close st currency f).2.1.apis currency =
      some { keychain := none } ∧
    (SwapApis.open_and_close st currency f).1 = (f { keychain := some kc }).1 := by
  refine ⟨?_, ?_, ?_⟩ <;>
    simp [SwapApis.open_and_close, hk, hreg, findApi_updateApi_self st.apis currency api _ hreg]

/-- Witness for C9 at concrete inputs: a registered implementation and an inner
call that fails; the keychain is still uninstalled and the failure passed
through. -/
theorem c9_scoped_keychain_witness :
    (SwapApis.open_and_close (K := Nat) (X := Unit)
        { apis := [(Currency.Btc, { keychain := none })], keychain := some 9 }
        Currency.Btc
        (fun a => (Except.error (SwapErrorKind.Generic expected_buyer_msg), a))).2.2 =
      [MuxEvent.set_keychain Currency.Btc (some 9), MuxEvent.call Currency.Btc,
       MuxEvent.set_keychain Currency.Btc none] ∧
    findApi (SwapApis.open_and_close (K := Nat) (X := Unit)
        { apis := [(Currency.Btc, { keychain := none })], keychain := some 9 }
        Currency.Btc
        (fun a => (Except.error (SwapErrorKind.Generic expected_buyer_msg), a))).2.1.apis
        Currency.Btc = some { keychain := none } ∧
    (SwapApis.open_and_close (K := Nat) (X := Unit)
        { apis := [(Currency.Btc, { keychain := none })], keychain := some 9 }
        Currency.Btc
        (fun a => (Except.error (SwapErrorKind.Generic expected_buyer_msg), a))).1 =
      Except.error (SwapErrorKind.Generic expected_buyer_msg) :=
  c9_scoped_keychain
    { apis := [(Currency.Btc, { keychain := none })], keychain := some 9 }
    Currency.Btc
    (fun a => (Except.error (SwapErrorKind.Generic expected_buyer_msg), a)) 9
    { keychain := none } rfl rfl

/- ------------------------------------------------------------------ -/
/- Broker connection state machine (src/src/broker/grinbox.rs)        -/
/- ------------------------------------------------------------------ -/

/-- Modelled from the spec: a peer address — public key, host, optional port.
Its normalized ("stripped") string form is the public-key string. -/
structure GrinboxAddress where
  public_key : String
  domain : String
  port : Option Nat
  deriving DecidableEq, Repr

def GrinboxAddress.stripped (a : GrinboxAddress) : String := a.public_key

/-- Modelled from the spec: the client-to-server protocol request vocabulary. -/
inductive ProtocolRequest
  | Subscribe (address : String) (signature : String)
  | PostSlate (source : String) (dest : String) (str : String) (signature : String)
  deriving DecidableEq, Repr

/-- Oracles for the collaborators of `post`: public-key parsing
(`GrinboxAddress::public_key`), encryption of the serialized payload for a
recipient key with the sender secret (`EncryptedMessage::new` followed by
serialization), challenge signing (`sign_challenge`), and whether the websocket
transport accepts a frame. -/
structure PostEnv where
  parse_public_key : String → Option String
  encrypt : String → String → String → Option String
  sign : String → String → Option String
  send_accepts : ProtocolRequest → Bool

/-- Transport sends attempted by `post`, with whether the transport accepted. -/
inductive PostEvent
  | sent (request : ProtocolRequest) (accepted : Bool)
  deriving DecidableEq, Repr

/-- Embedding of `GrinboxBroker::post`: fails with `ClosedListener("grinbox")`
when no sender handle is stored; otherwise parses the recipient public key,
encrypts the payload for it, signs the serialized ciphertext as the challenge,
builds the `PostSlate` request from the stripped addresses, and sends it —
returning `GenericError("failed sending message to grinbox relay")` when the
transport rejects the send.  (The second look at the handle under the lock is
collapsed with the `is_running` check, since the embedding is sequential.) -/
def GrinboxBroker.post (env : PostEnv) (socket : Option Unit) (payload : String)
    (dest source : GrinboxAddress) (secret_key : String) :
    Except Error Unit × List PostEvent :=
  if socket.isNone then
    (Except.error (Error.ClosedListener grinbox_tag), [])
  else
    match env.parse_public_key dest.public_key with
    | none => (Except.error Error.InvalidPublicKey, [])
    | some pkey =>
      match env.encrypt payload pkey secret_key with
      | none => (Except.error (Error.WsProtocol encrypt_failure_msg), [])
      | some message_ser =>
        match env.sign message_ser secret_key with
        | none => (Except.error Error.CryptoError, [])
        | some signature =>
          let request :=
            ProtocolRequest.PostSlate source.stripped dest.stripped message_ser signature
          if env.send_accepts request then
            (Except.ok (), [PostEvent.sent request true])
          else
            (Except.error (Error.GenericError send_failure_msg),
             [PostEvent.sent request false])

/-- C6: `post` with no stored socket handle fails with the closed-channel error
(`ClosedListener("grinbox")`) and sends nothing; with a handle, when key
parsing, encryption for the recipient's public key, and ciphertext signing
succeed, it sends exactly one `PostSlate` request built from the stripped
addresses, the ciphertext, and the ciphertext signature, succeeding when the
transport accepts and failing with the send-failure error
(`GenericError("failed sending message to grinbox relay")`) when it rejects;
and in every case `post` fails with the send-failure error exactly when a send
was attempted and the transport rejected it. -/
theorem c6_post_spec (env : PostEnv) (socket : Option Unit) (payload : String)
    (dest source : GrinboxAddress) (sk : String) :
    (socket = none →
      GrinboxBroker.post env socket payload dest source sk =
        (Except.error (Error.ClosedListener grinbox_tag), [])) ∧
    (∀ pkey cipher signature, socket = some () →
      env.parse_public_key dest.public_key = some pkey →
      env.encrypt payload pkey sk = some cipher →
      env.sign cipher sk = some signature →
      (GrinboxBroker.post env socket payload dest source sk).2 =
        [PostEvent.sent
          (ProtocolRequest.PostSlate source.stripped dest.stripped cipher signature)
          (env.send_accepts
            (ProtocolRequest.PostSlate source.stripped dest.stripped cipher signature))] ∧
      (env.send_accepts
          (ProtocolRequest.PostSlate source.stripped dest.stripped cipher signature) = true →
        (GrinboxBroker.post env socket payload dest source sk).1 = Except.ok ()) ∧
      (env.send_accepts
          (ProtocolRequest.PostSlate source.stripped dest.stripped cipher signature) = false →
        (GrinboxBroker.post env socket payload dest source sk).1 =
          Except.error (Error.GenericError send_failure_msg))) ∧
    ((GrinboxBroker.post env socket payload dest source sk).1 =
        Except.error (Error.GenericError send_failure_msg) ↔
      ∃ req, (GrinboxBroker.post env socket payload dest source sk).2 =
        [PostEvent.sent req false]) := by
  refine ⟨?_, ?_, ?_⟩
  · intro hnone
    simp [GrinboxBroker.post, hnone]
  · intro pkey cipher signature hsome hpk henc hsig
    cases hacc : env.send_accepts
        (ProtocolRequest.PostSlate source.stripped dest.stripped cipher signature) <;>
      simp [GrinboxBroker.post, hsome, hpk, henc, hsig, hacc]
  · cases socket with
    | none => simp [GrinboxBroker.post]
    | some u =>
      cases u
      simp only [GrinboxBroker.post, Option.isNone_some, Bool.false_eq_true, if_false]
      cases hpk : env.parse_public_key dest.public_key with
      | none => simp
      | some pkey =>
        cases henc : env.encrypt payload pkey sk with
        | none => simp [henc]
        | some cipher =>
          cases hsig : env.sign cipher sk with
          | none => simp [henc, hsig]
          | some signature =>
            cases hacc : env.send_accepts
                (ProtocolRequest.PostSlate source.stripped dest.stripped cipher signature) <;>
              simp [henc, hsig, hacc]

/-- Concrete oracle for `post` runs: parsing and signing are identities,
encryption concatenates, the transport accepts everything. -/
def postEnvAccept : PostEnv :=
  { parse_public_key := fun s => some s
    encrypt := fun p k _ => some (p ++ k)
    sign := fun c _ => some c
    send_accepts := fun _ => true }

def alice_addr : GrinboxAddress :=
  { public_key := "alicepk", domain := "alice.example", port := none }

def bob_addr : GrinboxAddress :=
  { public_key := "bobpk", domain := "bob.example", port := some 13420 }

def payload_text : String := "slatejson"

def secret_text : String := "sk"

/-- Witness for C6 at concrete inputs: with no socket the closed-channel error
and no send; with a socket and the accepting transport, one `PostSlate` send
and success. -/
theorem c6_post_spec_witness :
    GrinboxBroker.post postEnvAccept none payload_text bob_addr alice_addr secret_text =
      (Except.error (Error.ClosedListener grinbox_tag), []) ∧
    (GrinboxBroker.post postEnvAccept (some ()) payload_text bob_addr alice_addr
        secret_text).2 =
      [PostEvent.sent
        (ProtocolRequest.PostSlate alice_addr.stripped bob_addr.stripped
          (payload_text ++ bob_addr.public_key) (payload_text ++ bob_addr.public_key))
        true] ∧
    (GrinboxBroker.post postEnvAccept (some ()) payload_text bob_addr alice_addr
        secret_text).1 = Except.ok () := by
  have h1 := (c6_post_spec postEnvAccept none payload_text bob_addr alice_addr
    secret_text).1 rfl
  have h2 := (c6_post_spec postEnvAccept (some ()) payload_text bob_addr alice_addr
    secret_text).2.1 bob_addr.public_key (payload_text ++ bob_addr.public_key)
    (payload_text ++ bob_addr.public_key) rfl rfl rfl rfl
  exact ⟨h1, by simpa using h2.1, h2.2.1 rfl⟩

/- ------------------------------------------------------------------ -/
/- Swap action loop (src/src/internal/swap.rs)                        -/
/- ------------------------------------------------------------------ -/

/-- Modelled from the spec: the local role in a swap. -/
inductive Role
  | Buyer
  | Seller
  deriving DecidableEq, Repr

/-- Modelled from the spec: the swap engine's enumeration of required next
steps, with the constructors matched by the action loop. -/
inductive Action
  | SendMessage (m : Nat)
  | PublishTx
  | PublishTxSecondary
  | Complete
  | Cancel
  | Refund
  | None
  | ReceiveMessage
  | DepositSecondary (amount : Nat) (address : String)
  | Confirmations (required : Nat) (actual : Nat)
  | ConfirmationsSecondary (required : Nat) (actual : Nat)
  | ConfirmationRedeem
  | ConfirmationRedeemSecondary (address : String)
  deriving DecidableEq, Repr

/-- The waiting variants: the arms on which the action loop breaks because no
local action is possible. -/
def Action.is_waiting : Action → Bool
  | Action.None | Action.ReceiveMessage | Action.DepositSecondary _ _
  | Action.Confirmations _ _ | Action.ConfirmationsSecondary _ _
  | Action.ConfirmationRedeem | Action.ConfirmationRedeemSecondary _ => true
  | _ => false

/-- Modelled from the spec: a keychain identifier path.  `last_path_index`
mirrors `to_path().last_path_index()` and `parent_path` drops the final path
component. -/
abbrev KeyId := List Nat

def KeyId.last_path_index (k : KeyId) : Nat := k.getLastD 0

def KeyId.parent_path (k : KeyId) : KeyId := k.dropLast

/-- Modelled from the spec: commitments are represented directly by their hex
string, so the hex rendering of a commitment is the identity. -/
def to_hex (commitment : String) : String := commitment

/-- Output statuses used by the embedded sources. -/
inductive OutputStatus
  | Unconfirmed
  | Unspent
  deriving DecidableEq, Repr

/-- Embedding of `OutputData` with the fields the action loop constructs. -/
structure OutputData where
  root_key_id : KeyId
  key_id : KeyId
  n_child : Nat
  commit : Option String
  mmr_index : Option Nat
  value : Nat
  status : OutputStatus
  height : Nat
  lock_height : Nat
  is_coinbase : Bool
  tx_log_entry : Option Nat
  deriving DecidableEq, Repr

/-- Modelled from the spec: per-swap secret material scoped to the local role;
`unwrap_buyer` succeeds exactly on buyer contexts, yielding the buyer's output
key identifier. -/
inductive SwapContext
  | Buyer (output : KeyId)
  | Seller
  deriving DecidableEq, Repr

def SwapContext.unwrap_buyer : SwapContext → Except SwapErrorKind KeyId
  | SwapContext.Buyer o => Except.ok o
  | SwapContext.Seller => Except.error (SwapErrorKind.Generic expected_buyer_msg)

/-- Modelled from the spec: the swap-engine swap record fields the embedded
sources read.  `redeem_output` carries the redeemed coin's value and commitment
when available. -/
structure Swap where
  id : Nat
  address : Option String
  role : Role
  redeem_output : Option (Nat × String)
  deriving DecidableEq, Repr

def Swap.is_seller (s : Swap) : Bool := s.role == Role.Seller

/-- Address kinds distinguished when sending a swap message. -/
inductive AddressType
  | Grinbox
  | Keybase
  deriving DecidableEq, Repr

/-- A parsed peer address as the action loop uses it: its kind and its string
form. -/
structure ParsedAddress where
  addr_type : AddressType
  text : String
  deriving DecidableEq, Repr

/-- Embedding of the wallet offer record (`SwapOffer` in the wallet sources). -/
structure SwapOffer where
  id : Nat
  idx : Nat
  address : Option String
  offer : Nat
  secondary : Nat
  deriving DecidableEq, Repr

/-- Write operations collected into a wallet storage batch. -/
inductive BatchOp
  | save_output (out : OutputData)
  | delete_swap_context (id : Nat)
  | store_swap (s : Swap)
  | store_swap_offer (o : SwapOffer)
  | store_swap_mapping (idx : Nat) (id : Nat)
  | set_swap_idx (idx : Nat)
  deriving DecidableEq, Repr

/-- The wallet store portions touched by the embedded operations. -/
structure WalletStore where
  outputs : List OutputData
  swaps : List Swap
  swap_contexts : List (Nat × SwapContext)
  swap_offers : List SwapOffer
  swap_mappings : List (Nat × Nat)
  swap_idx : Nat
  deriving DecidableEq, Repr

/-- Applies one batched write to the store; stores are keyed upserts. -/
def WalletStore.apply_op (st : WalletStore) : BatchOp → WalletStore
  | BatchOp.save_output out => { st with outputs := st.outputs ++ [out] }
  | BatchOp.delete_swap_context i =>
    { st with swap_contexts := st.swap_contexts.filter (fun p => p.1 != i) }
  | BatchOp.store_swap s =>
    { st with swaps := st.swaps.filter (fun t => t.id != s.id) ++ [s] }
  | BatchOp.store_swap_offer o =>
    { st with swap_offers := st.swap_offers.filter (fun t => t.id != o.id) ++ [o] }
  | BatchOp.store_swap_mapping idx i =>
    { st with swap_mappings := st.swap_mappings.filter (fun p => p.1 != idx) ++ [(idx, i)] }
  | BatchOp.set_swap_idx idx => { st with swap_idx := idx }

/-- Committing a batch applies all its writes at once (the all-or-nothing
contract of `WalletBackendBatch::commit`). -/
def WalletStore.commit_batch (st : WalletStore) (ops : List BatchOp) : WalletStore :=
  ops.foldl WalletStore.apply_op st

def WalletStore.get_swap (st : WalletStore) (i : Nat) : Option Swap :=
  st.swaps.find? (fun s => s.id == i)

def WalletStore.get_swap_offer (st : WalletStore) (i : Nat) : Option SwapOffer :=
  st.swap_offers.find? (fun o => o.id == i)

def WalletStore.get_swap_context (st : WalletStore) (i : Nat) : Option SwapContext :=
  (st.swap_contexts.find? (fun p => p.1 == i)).map (fun p => p.2)

/-- Oracles for the action loop's collaborators: the per-currency swap engine
calls (each possibly updating the swap), the address parser, and the grinbox
listener.  `grinbox_listener` says whether a grinbox listener is registered and
`publish_swap_message` whether publishing a given message succeeds. -/
structure SwapEnv where
  required_action : Swap → Except SwapErrorKind (Action × Swap)
  message : Swap → Except SwapErrorKind Nat
  message_sent : Swap → Except SwapErrorKind (Action × Swap)
  publish_transaction : Swap → Except SwapErrorKind (Action × Swap)
  publish_secondary_transaction : Swap → Except SwapErrorKind (Action × Swap)
  completed : Swap → Except SwapErrorKind (Action × Swap)
  receive_message : Swap → Except SwapErrorKind Swap
  parse_address : String → Option ParsedAddress
  grinbox_listener : Bool
  publish_swap_message : Nat → String → Bool

/-- Result of the action loop: the returned action, a propagated error, the
panic of an unimplemented arm, or exhaustion of the step budget. -/
inductive LoopResult
  | ok (a : Action)
  | error_swap (e : SwapErrorKind)
  | error_wallet (e : Error)
  | panicked
  | out_of_fuel
  deriving DecidableEq, Repr

/-- Propagation of an action-loop outcome through the `?` operator: the
returned action is passed along, engine and wallet errors become wallet errors,
and the embedded panic and step-budget outcomes also abort the caller. -/
def LoopResult.to_except : LoopResult → Except Error Action
  | LoopResult.ok a => Except.ok a
  | LoopResult.error_swap e => Except.error (Error.SwapError e)
  | LoopResult.error_wallet e => Except.error e
  | LoopResult.panicked => Except.error Error.Panicked
  | LoopResult.out_of_fuel => Except.error Error.NoFuel

/-- Side effects observable from the action loop: swap-message publishes and
batch commits. -/
inductive LoopEvent
  | publish_swap_message (m : Nat) (dest : String) (accepted : Bool)
  | commit (ops : List BatchOp)
  deriving DecidableEq, Repr

/-- The wallet-output record the Complete arm builds from the buyer context's
output key and the redeemed coin. -/
def mk_redeem_output (key_id : KeyId) (value : Nat) (commitment : String) : OutputData :=
  { root_key_id := key_id.parent_path
    key_id := key_id
    n_child := key_id.last_path_index
    commit := some (to_hex commitment)
    mmr_index := none
    value := value
    status := OutputStatus.Unconfirmed
    height := 0
    lock_height := 0
    is_coinbase := false
    tx_log_entry := none }

/-- Embedding of the loop in `update_swap`, one constructor arm per source
match arm, driven by a step budget.  Engine failures inside an arm break the
loop, which then returns the current action; batch persistence happens only in
the Complete arm; Cancel and Refund panic (`unimplemented!`); the listed
waiting variants break immediately. -/
def update_swap_loop (env : SwapEnv) (context : SwapContext)
    (address : Option ParsedAddress) (backend_connected : Bool) :
    Nat → Action → Swap → WalletStore →
    LoopResult × Swap × WalletStore × List LoopEvent
  | 0, _, swap, store => (LoopResult.out_of_fuel, swap, store, [])
  | fuel + 1, action, swap, store =>
    match action with
    | Action.SendMessage m =>
      match env.message swap with
      | Except.error _ => (LoopResult.ok (Action.SendMessage m), swap, store, [])
      | Except.ok msg =>
        match address with
        | none => (LoopResult.ok (Action.SendMessage m), swap, store, [])
        | some a =>
          match a.addr_type with
          | AddressType.Grinbox =>
            if env.grinbox_listener then
              if env.publish_swap_message msg a.text then
                match env.message_sent swap with
                | Except.ok r =>
                  let rec2 := update_swap_loop env context address backend_connected
                    fuel r.1 r.2 store
                  (rec2.1, rec2.2.1, rec2.2.2.1,
                    LoopEvent.publish_swap_message msg a.text true :: rec2.2.2.2)
                | Except.error _ =>
                  (LoopResult.ok (Action.SendMessage m), swap, store,
                    [LoopEvent.publish_swap_message msg a.text true])
              else
                (LoopResult.ok (Action.SendMessage m), swap, store,
                  [LoopEvent.publish_swap_message msg a.text false])
            else (LoopResult.ok (Action.SendMessage m), swap, store, [])
          | AddressType.Keybase => (LoopResult.panicked, swap, store, [])
    | Action.PublishTx =>
      match env.publish_transaction swap with
      | Except.ok r =>
        update_swap_loop env context address backend_connected fuel r.1 r.2 store
      | Except.error _ => (LoopResult.ok Action.PublishTx, swap, store, [])
    | Action.PublishTxSecondary =>
      match env.publish_secondary_transaction swap with
      | Except.ok r =>
        update_swap_loop env context address backend_connected fuel r.1 r.2 store
      | Except.error _ => (LoopResult.ok Action.PublishTxSecondary, swap, store, [])
    | Action.Complete =>
      match env.completed swap with
      | Except.error _ => (LoopResult.ok Action.Complete, swap, store, [])
      | Except.ok r =>
        if backend_connected then
          if r.2.is_seller then
            let ops := [BatchOp.delete_swap_context r.2.id]
            let rec2 := update_swap_loop env context address backend_connected
              fuel r.1 r.2 (store.commit_batch ops)
            (rec2.1, rec2.2.1, rec2.2.2.1, LoopEvent.commit ops :: rec2.2.2.2)
          else
            match context.unwrap_buyer with
            | Except.error _ => (LoopResult.ok r.1, r.2, store, [])
            | Except.ok key_id =>
              match r.2.redeem_output with
              | none => (LoopResult.ok r.1, r.2, store, [])
              | some vc =>
                let out := mk_redeem_output key_id vc.1 vc.2
                let ops := [BatchOp.save_output out, BatchOp.delete_swap_context r.2.id]
                let rec2 := update_swap_loop env context address backend_connected
                  fuel r.1 r.2 (store.commit_batch ops)
                (rec2.1, rec2.2.1, rec2.2.2.1, LoopEvent.commit ops :: rec2.2.2.2)
        else (LoopResult.error_wallet Error.NoBackend, r.2, store, [])
    | Action.Cancel => (LoopResult.panicked, swap, store, [])
    | Action.Refund => (LoopResult.panicked, swap, store, [])
    | Action.None => (LoopResult.ok Action.None, swap, store, [])
    | Action.ReceiveMessage => (LoopResult.ok Action.ReceiveMessage, swap, store, [])
    | Action.DepositSecondary amount addr =>
      (LoopResult.ok (Action.DepositSecondary amount addr), swap, store, [])
    | Action.Confirmations required actual =>
      (LoopResult.ok (Action.Confirmations required actual), swap, store, [])
    | Action.ConfirmationsSecondary required actual =>
      (LoopResult.ok (Action.ConfirmationsSecondary required actual), swap, store, [])
    | Action.ConfirmationRedeem =>
      (LoopResult.ok Action.ConfirmationRedeem, swap, store, [])
    | Action.ConfirmationRedeemSecondary addr =>
      (LoopResult.ok (Action.ConfirmationRedeemSecondary addr), swap, store, [])

/-- Embedding of `update_swap`: parses the swap's recorded peer address when
present, queries the required action, and runs the loop. -/
def update_swap (env : SwapEnv) (swap : Swap) (context : SwapContext)
    (backend_connected : Bool) (store : WalletStore) (fuel : Nat) :
    LoopResult × Swap × WalletStore × List LoopEvent :=
  match swap.address with
  | some a =>
    match env.parse_address a with
    | none =>
      (LoopResult.error_wallet (Error.GenericError parse_address_failure_msg),
        swap, store, [])
    | some pa =>
      match env.required_action swap with
      | Except.error e => (LoopResult.error_swap e, swap, store, [])
      | Except.ok r =>
        update_swap_loop env context (some pa) backend_connected fuel r.1 r.2 store
  | none =>
    match env.required_action swap with
    | Except.error e => (LoopResult.error_swap e, swap, store, [])
    | Except.ok r =>
      update_swap_loop env context none backend_connected fuel r.1 r.2 store

/-- The loop breaks immediately on every waiting action, returning it with the
swap, store and event trace untouched. -/
theorem update_swap_loop_waiting (env : SwapEnv) (context : SwapContext)
    (address : Option ParsedAddress) (backend_connected : Bool) (fuel : Nat)
    (a : Action) (swap : Swap) (store : WalletStore) (hw : a.is_waiting = true) :
    update_swap_loop env context address backend_connected (fuel + 1) a swap store =
      (LoopResult.ok a, swap, store, []) := by
  cases a <;> simp_all [Action.is_waiting, update_swap_loop]

/-- C8: whenever the required action of a swap is a waiting variant (and the
recorded peer address, if any, parses), `update_swap` performs no iteration and
no side effect — no publish, no commit, an unchanged store — and returns that
waiting action unchanged. -/
theorem c8_waiting_exits (env : SwapEnv) (swap swap2 : Swap) (context : SwapContext)
    (backend_connected : Bool) (store : WalletStore) (fuel : Nat) (a : Action)
    (haddr : swap.address = none ∨
      ∃ s pa, swap.address = some s ∧ env.parse_address s = some pa)
    (hra : env.required_action swap = Except.ok (a, swap2))
    (hw : a.is_waiting = true) :
    update_swap env swap context backend_connected store (fuel + 1) =
      (LoopResult.ok a, swap2, store, []) := by
  rcases haddr with h | ⟨s, pa, hs, hpa⟩
  · simp [update_swap, h, hra,
      update_swap_loop_waiting env context none backend_connected fuel a swap2 store hw]
  · simp [update_swap, hs, hpa, hra,
      update_swap_loop_waiting env context (some pa) backend_connected fuel a swap2
        store hw]

/-- Filter by key difference leaves no entry with the filtered key, so a keyed
lookup after the deletion finds nothing. -/
theorem find_filter_ne_none {α : Type} (l : List (Nat × α)) (i : Nat) :
    (l.filter (fun p => p.1 != i)).find? (fun p => p.1 == i) = none := by
  induction l with
  | nil => simp
  | cons hd tl ih =>
    by_cases h : hd.1 = i
    · simp [List.filter_cons, h, ih]
    · simp [List.filter_cons, h, List.find?, ih]

/-- Deleting a swap context removes every stored context under that id. -/
theorem get_swap_context_after_delete (st : WalletStore) (i : Nat) :
    (st.apply_op (BatchOp.delete_swap_context i)).get_swap_context i = none := by
  simp [WalletStore.apply_op, WalletStore.get_swap_context, find_filter_ne_none]

/-- With no recorded peer address and a successful required-action query,
`update_swap` is the loop started on the returned action. -/
theorem update_swap_no_address (env : SwapEnv) (swap swap1 : Swap)
    (context : SwapContext) (bc : Bool) (store : WalletStore) (fuel : Nat) (a : Action)
    (haddr : swap.address = none)
    (hra : env.required_action swap = Except.ok (a, swap1)) :
    update_swap env swap context bc store fuel =
      update_swap_loop env context none bc fuel a swap1 store := by
  simp [update_swap, haddr, hra]

/-- One step of the Complete arm for a seller swap: the batch deletes the
context, the commit is recorded, and the loop continues on the next action. -/
theorem update_swap_loop_complete_seller (env : SwapEnv) (context : SwapContext)
    (address : Option ParsedAddress) (fuel : Nat) (swap swap2 : Swap) (a2 : Action)
    (store : WalletStore) (hc : env.completed swap = Except.ok (a2, swap2))
    (hsell : swap2.is_seller = true) :
    update_swap_loop env context address true (fuel + 1) Action.Complete swap store =
      ((update_swap_loop env context address true fuel a2 swap2
          (store.commit_batch [BatchOp.delete_swap_context swap2.id])).1,
       (update_swap_loop env context address true fuel a2 swap2
          (store.commit_batch [BatchOp.delete_swap_context swap2.id])).2.1,
       (update_swap_loop env context address true fuel a2 swap2
          (store.commit_batch [BatchOp.delete_swap_context swap2.id])).2.2.1,
       LoopEvent.commit [BatchOp.delete_swap_context swap2.id] ::
         (update_swap_loop env context address true fuel a2 swap2
            (store.commit_batch [BatchOp.delete_swap_context swap2.id])).2.2.2) := by
  simp [update_swap_loop, hc, hsell]

/-- One step of the Complete arm for a buyer swap with buyer context and
redeem output available: the batch saves the new output record and deletes the
context, the commit is recorded, and the loop continues on the next action. -/
theorem update_swap_loop_complete_buyer (env : SwapEnv) (context : SwapContext)
    (address : Option ParsedAddress) (fuel : Nat) (swap swap2 : Swap) (a2 : Action)
    (store : WalletStore) (key_id : KeyId) (value : Nat) (cm : String)
    (hc : env.completed swap = Except.ok (a2, swap2))
    (hsell : swap2.is_seller = false) (hctx : context = SwapContext.Buyer key_id)
    (hro : swap2.redeem_output = some (value, cm)) :
    update_swap_loop env context address true (fuel + 1) Action.Complete swap store =
      ((update_swap_loop env context address true fuel a2 swap2
          (store.commit_batch
            [BatchOp.save_output (mk_redeem_output key_id value cm),
             BatchOp.delete_swap_context swap2.id])).1,
       (update_swap_loop env context address true fuel a2 swap2
          (store.commit_batch
            [BatchOp.save_output (mk_redeem_output key_id value cm),
             BatchOp.delete_swap_context swap2.id])).2.1,
       (update_swap_loop env context address true fuel a2 swap2
          (store.commit_batch
            [BatchOp.save_output (mk_redeem_output key_id value cm),
             BatchOp.delete_swap_context swap2.id])).2.2.1,
       LoopEvent.commit
           [BatchOp.save_output (mk_redeem_output key_id value cm),
            BatchOp.delete_swap_context swap2.id] ::
         (update_swap_loop env context address true fuel a2 swap2
            (store.commit_batch
              [BatchOp.save_output (mk_redeem_output key_id value cm),
               BatchOp.delete_swap_context swap2.id])).2.2.2) := by
  subst hctx
  simp [update_swap_loop, hc, hsell, SwapContext.unwrap_buyer, hro]

/-- C7: when the action loop handles Complete and the engine's completed call
succeeds with a next waiting action: for a seller swap, the single atomic batch
contains exactly the context deletion — no output record is saved, the output
list is unchanged, and the context is gone; for a buyer swap (buyer context
available and a redeem output recorded), the single atomic batch contains
exactly one new output record and the context deletion — the output list grows
by exactly that record and the context is gone.  In both cases the trace holds
exactly one commit. -/
theorem c7_complete_persistence (env : SwapEnv) (swap swap1 swap2 : Swap)
    (context : SwapContext) (store : WalletStore) (fuel : Nat) (a2 : Action)
    (haddr : swap.address = none)
    (hra : env.required_action swap = Except.ok (Action.Complete, swap1))
    (hc : env.completed swap1 = Except.ok (a2, swap2))
    (hw : a2.is_waiting = true) :
    (swap2.is_seller = true →
      update_swap env swap context true store (fuel + 2) =
        (LoopResult.ok a2, swap2,
          store.commit_batch [BatchOp.delete_swap_context swap2.id],
          [LoopEvent.commit [BatchOp.delete_swap_context swap2.id]]) ∧
      (store.commit_batch [BatchOp.delete_swap_context swap2.id]).outputs =
        store.outputs ∧
      (store.commit_batch
          [BatchOp.delete_swap_context swap2.id]).get_swap_context swap2.id = none) ∧
    (∀ key_id value cm, swap2.is_seller = false →
      context = SwapContext.Buyer key_id →
      swap2.redeem_output = some (value, cm) →
      update_swap env swap context true store (fuel + 2) =
        (LoopResult.ok a2, swap2,
          store.commit_batch
            [BatchOp.save_output (mk_redeem_output key_id value cm),
             BatchOp.delete_swap_context swap2.id],
          [LoopEvent.commit
            [BatchOp.save_output (mk_redeem_output key_id value cm),
             BatchOp.delete_swap_context swap2.id]]) ∧
      (store.commit_batch
          [BatchOp.save_output (mk_redeem_output key_id value cm),
           BatchOp.delete_swap_context swap2.id]).outputs =
        store.outputs ++ [mk_redeem_output key_id value cm] ∧
      (store.commit_batch
          [BatchOp.save_output (mk_redeem_output key_id value cm),
           BatchOp.delete_swap_context swap2.id]).get_swap_context swap2.id = none) := by
  constructor
  · intro hsell
    refine ⟨?_, ?_, ?_⟩
    · rw [update_swap_no_address env swap swap1 context true store (fuel + 2)
          Action.Complete haddr hra,
        show fuel + 2 = (fuel + 1) + 1 from rfl,
        update_swap_loop_complete_seller env context none (fuel + 1) swap1 swap2 a2
          store hc hsell,
        update_swap_loop_waiting env context none true fuel a2 swap2
          (store.commit_batch [BatchOp.delete_swap_context swap2.id]) hw]
    · simp [WalletStore.commit_batch, WalletStore.apply_op]
    · simpa [WalletStore.commit_batch] using
        get_swap_context_after_delete store swap2.id
  · intro key_id value cm hsell hctx hro
    refine ⟨?_, ?_, ?_⟩
    · rw [update_swap_no_address env swap swap1 context true store (fuel + 2)
          Action.Complete haddr hra,
        show fuel + 2 = (fuel + 1) + 1 from rfl,
        update_swap_loop_complete_buyer env context none (fuel + 1) swap1 swap2 a2
          store key_id value cm hc hsell hctx hro,
        update_swap_loop_waiting env context none true fuel a2 swap2
          (store.commit_batch
            [BatchOp.save_output (mk_redeem_output key_id value cm),
             BatchOp.delete_swap_context swap2.id]) hw]
    · simp [WalletStore.commit_batch, WalletStore.apply_op]
    · simp [WalletStore.commit_batch, WalletStore.apply_op,
        WalletStore.get_swap_context, find_filter_ne_none]

/-- Swap engine oracle for concrete runs: the required action is Complete, and
completion reports the waiting action None. -/
def completeEnv : SwapEnv :=
  { required_action := fun s => Except.ok (Action.Complete, s)
    message := fun _ => Except.ok 0
    message_sent := fun s => Except.ok (Action.None, s)
    publish_transaction := fun s => Except.ok (Action.None, s)
    publish_secondary_transaction := fun s => Except.ok (Action.None, s)
    completed := fun s => Except.ok (Action.None, s)
    receive_message := fun s => Except.ok s
    parse_address := fun _ => none
    grinbox_listener := false
    publish_swap_message := fun _ _ => false }

def redeem_commit : String := "commithex"

def buyer_key : KeyId := [0, 2, 7]

/-- Concrete buyer swap with a recorded redeem output. -/
def buyerSwap : Swap :=
  { id := 3, address := none, role := Role.Buyer, redeem_output := some (1000, redeem_commit) }

def buyerContext : SwapContext := SwapContext.Buyer buyer_key

/-- Concrete store holding the buyer swap's context. -/
def store0 : WalletStore :=
  { outputs := [], swaps := [buyerSwap], swap_contexts := [(3, buyerContext)],
    swap_offers := [], swap_mappings := [], swap_idx := 1 }

/-- Witness for C7 at concrete inputs: a buyer swap completing; one output
record is created and the context removed, in one commit. -/
theorem c7_complete_persistence_witness :
    update_swap completeEnv buyerSwap buyerContext true store0 (0 + 2) =
      (LoopResult.ok Action.None, buyerSwap,
        store0.commit_batch
          [BatchOp.save_output (mk_redeem_output buyer_key 1000 redeem_commit),
           BatchOp.delete_swap_context buyerSwap.id],
        [LoopEvent.commit
          [BatchOp.save_output (mk_redeem_output buyer_key 1000 redeem_commit),
           BatchOp.delete_swap_context buyerSwap.id]]) ∧
    (store0.commit_batch
        [BatchOp.save_output (mk_redeem_output buyer_key 1000 redeem_commit),
         BatchOp.delete_swap_context buyerSwap.id]).outputs =
      store0.outputs ++ [mk_redeem_output buyer_key 1000 redeem_commit] ∧
    (store0.commit_batch
        [BatchOp.save_output (mk_redeem_output buyer_key 1000 redeem_commit),
         BatchOp.delete_swap_context buyerSwap.id]).get_swap_context buyerSwap.id =
      none :=
  (c7_complete_persistence completeEnv buyerSwap buyerSwap buyerSwap buyerContext
    store0 0 Action.None rfl rfl rfl rfl).2 buyer_key 1000 redeem_commit
    (by decide) rfl rfl

/-- Waiting-action swap engine oracle for concrete runs. -/
def waitingEnv : SwapEnv :=
  { completeEnv with
    required_action := fun s => Except.ok (Action.ReceiveMessage, s) }

/-- Witness for C8 at concrete inputs: a swap whose required action is
ReceiveMessage; the loop exits at once with it, leaving the store untouched. -/
theorem c8_waiting_exits_witness :
    update_swap waitingEnv buyerSwap buyerContext true store0 (4 + 1) =
      (LoopResult.ok Action.ReceiveMessage, buyerSwap, store0, []) :=
  c8_waiting_exits waitingEnv buyerSwap buyerSwap buyerContext true store0 4
    Action.ReceiveMessage (Or.inl rfl) rfl rfl

/- ------------------------------------------------------------------ -/
/- Foreign api: receive_swap_message (src/src/wallet/api/foreign.rs)  -/
/- ------------------------------------------------------------------ -/

/-- Modelled from the spec: the payload of a swap protocol message — an offer
(with its terms index) or any later-stage update. -/
inductive SwapUpdate
  | Offer (offer : Nat)
  | Other
  deriving DecidableEq, Repr

/-- Modelled from the spec: a swap protocol message with its swap id, its
update payload, and the secondary-chain part. -/
structure SwapMessage where
  id : Nat
  inner : SwapUpdate
  secondary : Nat
  deriving DecidableEq, Repr

/-- The wallet container portions `receive_swap_message` touches: the store,
whether the backend is connected and seeded and its credentials open, the
wallet keychain, and the multiplexer's keychain slot. -/
structure ContainerState where
  store : WalletStore
  backend_connected : Bool
  has_seed : Bool
  open_ok : Bool
  keychain : Nat
  swap_apis_keychain : Option Nat
  deriving DecidableEq, Repr

/-- Embedding of `Foreign::swap_open_and_close`: requires a connected backend
with a seed, opens the wallet with the stored credentials, installs the wallet
keychain into the swap multiplexer, runs the operation, and uninstalls the
keychain again (the wallet close is attempted but its failure ignored). -/
def Foreign.swap_open_and_close {X : Type} (st : ContainerState)
    (f : ContainerState → Except Error X × ContainerState) :
    Except Error X × ContainerState :=
  if st.backend_connected = false then (Except.error Error.NoBackend, st)
  else if st.has_seed = false then (Except.error Error.NoSeed, st)
  else if st.open_ok = false then (Except.error (Error.GenericError open_failure_msg), st)
  else
    let r := f { st with swap_apis_keychain := some st.keychain }
    (r.1, { r.2 with swap_apis_keychain := none })

/-- Embedding of the body of `Foreign::receive_swap_message`.  An offer whose
id already matches a stored swap or stored swap offer is rejected before any
batch is created; a fresh offer is stored, with its idx mapping and the idx
advance, in one batch commit.  Any other message loads the context and swap,
pumps the action loop, feeds the message to the engine, pumps again, and stores
the updated swap in one batch commit. -/
def Foreign.receive_swap_message_inner (env : SwapEnv) (address : Option String)
    (message : SwapMessage) (fuel : Nat) (st : ContainerState) :
    Except Error Unit × ContainerState :=
  match message.inner with
  | SwapUpdate.Offer offer =>
    if st.backend_connected = false then (Except.error Error.NoBackend, st)
    else if (st.store.get_swap message.id).isSome ||
        (st.store.get_swap_offer message.id).isSome then
      (Except.error (Error.GenericError swap_exists_msg), st)
    else
      let idx := st.store.swap_idx
      let offer_rec : SwapOffer :=
        { id := message.id, idx := idx, address := address, offer := offer,
          secondary := message.secondary }
      let ops := [BatchOp.set_swap_idx (idx + 1),
                  BatchOp.store_swap_mapping idx message.id,
                  BatchOp.store_swap_offer offer_rec]
      (Except.ok (), { st with store := st.store.commit_batch ops })
  | SwapUpdate.Other =>
    if st.backend_connected = false then (Except.error Error.NoBackend, st)
    else
      match st.store.get_swap_context message.id with
      | none => (Except.error Error.NotFound, st)
      | some context =>
        match st.store.get_swap message.id with
        | none => (Except.error Error.NotFound, st)
        | some swap =>
          let r1 := update_swap env swap context st.backend_connected st.store fuel
          match LoopResult.to_except r1.1 with
          | Except.error e => (Except.error e, { st with store := r1.2.2.1 })
          | Except.ok _ =>
            match env.receive_message r1.2.1 with
            | Except.error e =>
              (Except.error (Error.SwapError e), { st with store := r1.2.2.1 })
            | Except.ok swap2 =>
              let r2 := update_swap env swap2 context st.backend_connected r1.2.2.1 fuel
              match LoopResult.to_except r2.1 with
              | Except.error e => (Except.error e, { st with store := r2.2.2.1 })
              | Except.ok _ =>
                (Except.ok (),
                  { st with
                      store := r2.2.2.1.commit_batch [BatchOp.store_swap r2.2.1] })

/-- Embedding of `Foreign::receive_swap_message`: the body above run inside
`swap_open_and_close`. -/
def Foreign.receive_swap_message (env : SwapEnv) (st : ContainerState)
    (address : Option String) (message : SwapMessage) (fuel : Nat) :
    Except Error Unit × ContainerState :=
  Foreign.swap_open_and_close st
    (Foreign.receive_swap_message_inner env address message fuel)

/-- C10: a swap message carrying an Offer whose id already matches a stored
swap or a stored swap offer makes `receive_swap_message` return an error, and
the wallet store is left exactly as it was: no offer, no idx mapping, and no
idx advance is persisted. -/
theorem c10_duplicate_offer (env : SwapEnv) (st : ContainerState)
    (address : Option String) (message : SwapMessage) (offer : Nat) (fuel : Nat)
    (hoff : message.inner = SwapUpdate.Offer offer)
    (hdup : (st.store.get_swap message.id).isSome = true ∨
      (st.store.get_swap_offer message.id).isSome = true) :
    (∃ e, (Foreign.receive_swap_message env st address message fuel).1 =
      Except.error e) ∧
    (Foreign.receive_swap_message env st address message fuel).2.store = st.store := by
  unfold Foreign.receive_swap_message Foreign.swap_open_and_close
  by_cases hb : st.backend_connected = false
  · simp [hb]
  · by_cases hsd : st.has_seed = false
    · simp [hb, hsd]
    · by_cases ho : st.open_ok = false
      · simp [hb, hsd, ho]
      · have hdup2 :
            ((st.store.get_swap message.id).isSome ||
              (st.store.get_swap_offer message.id).isSome) = true := by
          rcases hdup with h | h <;> simp [h]
        simp [hb, hsd, ho, Foreign.receive_swap_message_inner, hoff, hdup2]

/-- Concrete duplicate-offer scenario: the store already holds a swap with the
incoming offer's id. -/
def dupContainer : ContainerState :=
  { store := store0, backend_connected := true, has_seed := true, open_ok := true,
    keychain := 11, swap_apis_keychain := none }

def dupOfferMessage : SwapMessage :=
  { id := 3, inner := SwapUpdate.Offer 4, secondary := 6 }

/-- Witness for C10 at concrete inputs: the duplicate offer is rejected and the
store is unchanged. -/
theorem c10_duplicate_offer_witness :
    (∃ e, (Foreign.receive_swap_message completeEnv dupContainer none
      dupOfferMessage 5).1 = Except.error e) ∧
    (Foreign.receive_swap_message completeEnv dupContainer none
      dupOfferMessage 5).2.store = dupContainer.store :=
  c10_duplicate_offer completeEnv dupContainer none dupOfferMessage 4 5 rfl
    (Or.inl (by decide))

end Wallet713
